import Mathlib

/-!
Shallow embedding of the distributed coordination core of the
abuse-detection system: the shared-store token-bucket rate limiter, the
distributed lock, and the Kafka message pipeline (producer, consumer,
dead-letter routing).

Numeric conventions: JavaScript numbers are modelled as rationals, epoch
timestamps (Date.now) as integers in milliseconds.  Store interaction is
modelled by explicit state passing: the stored bucket is a value of type
StoredBucket (absent, malformed JSON, or a parsed bucket) and a Boolean
storeFailing flag models the store raising on the round trip; both are
caught by the try/catch of the source and turned into a fail-open or
fail-closed decision.
-/

namespace ADS

/-! ## Rate limiter (CacheManager.rateLimitCheck) -/

/-- A token bucket as persisted under the key rate_limit:identifier:
JSON with fields tokens and lastRefill (epoch ms). -/
structure Bucket where
  tokens : ℚ
  lastRefill : ℤ
deriving Repr, DecidableEq

/-- What the store holds for a bucket key: nothing, a value that fails to
parse as a bucket, or a bucket. -/
inductive StoredBucket where
  | absent
  | malformed
  | bucket (b : Bucket)
deriving Repr, DecidableEq

/-- Observable outcome of one rateLimitCheck call: the returned Boolean,
the post-call stored state, the TTL passed to set when a write happened,
and whether the catch branch ran (logger.error, degraded mode). -/
structure RateLimitOutcome where
  allowed : Bool
  stored : StoredBucket
  writtenTTL : Option ℤ
  degraded : Bool
deriving Repr, DecidableEq

/-- Embedding of CacheManager.rateLimitCheck.  storeFailing models the
get (or subsequent set) raising; a malformed stored value models
JSON.parse raising.  Both land in the catch branch: log and return true
(fail open).  Otherwise: absent key means a full bucket; a present
bucket is refilled by floor(elapsed seconds times refillRate) and capped
at maxTokens; if the refilled tokens cover tokensRequested they are
decremented and the bucket is written back with lastRefill := now and
TTL ceil(maxTokens / refillRate) * 2, else nothing is written. -/
def rateLimitCheck (storeFailing : Bool) (stored : StoredBucket) (now : ℤ)
    (maxTokens refillRate tokensRequested : ℚ) : RateLimitOutcome :=
  if storeFailing then
    { allowed := true, stored := stored, writtenTTL := none, degraded := true }
  else
    match stored with
    | .malformed =>
        { allowed := true, stored := .malformed, writtenTTL := none, degraded := true }
    | .absent =>
        let tokens := maxTokens
        if tokensRequested ≤ tokens then
          { allowed := true,
            stored := .bucket ⟨tokens - tokensRequested, now⟩,
            writtenTTL := some (⌈maxTokens / refillRate⌉ * 2),
            degraded := false }
        else
          { allowed := false, stored := .absent, writtenTTL := none, degraded := false }
    | .bucket b =>
        let timeElapsed : ℚ := ((now - b.lastRefill : ℤ) : ℚ) / 1000
        let tokensToAdd : ℤ := ⌊timeElapsed * refillRate⌋
        let tokens : ℚ := min maxTokens (b.tokens + (tokensToAdd : ℚ))
        if tokensRequested ≤ tokens then
          { allowed := true,
            stored := .bucket ⟨tokens - tokensRequested, now⟩,
            writtenTTL := some (⌈maxTokens / refillRate⌉ * 2),
            degraded := false }
        else
          { allowed := false, stored := .bucket b, writtenTTL := none, degraded := false }

/-- A sequence of checks against one bucket: each call runs against the
state the previous call left behind (no store failures). -/
def runChecks (maxTokens refillRate : ℚ) :
    StoredBucket → List (ℤ × ℚ) → List RateLimitOutcome
  | _, [] => []
  | s, (now, q) :: rest =>
      rateLimitCheck false s now maxTokens refillRate q ::
        runChecks maxTokens refillRate
          (rateLimitCheck false s now maxTokens refillRate q).stored rest

/-- The rate-limiter contract as the claim words it: absent means a full
bucket with lastRefill = now; otherwise refill to
min(maxTokens, tokens + floor(elapsed * refillRate)); allow iff the
refilled tokens cover the request, subtracting and persisting on allow
and leaving the state unchanged on deny. -/
def rateLimitClaimSpec (stored : Option Bucket) (now : ℤ)
    (maxTokens refillRate tokensRequested : ℚ) : Bool × Option Bucket :=
  let b := stored.getD ⟨maxTokens, now⟩
  let elapsed : ℚ := ((now - b.lastRefill : ℤ) : ℚ) / 1000
  let refilled : ℚ := min maxTokens (b.tokens + ((⌊elapsed * refillRate⌋ : ℤ) : ℚ))
  if refilled ≥ tokensRequested then (true, some ⟨refilled - tokensRequested, now⟩)
  else (false, stored)

/-- Conversion from the claim view (Option Bucket) to the store view. -/
def toStored : Option Bucket → StoredBucket
  | none => .absent
  | some b => .bucket b

/-! ## Distributed lock (CacheManager.acquireLock / releaseLock) -/

/-- A stored lock entry under lock:lockKey: the owner token written by
SET NX EX plus the instant (epoch ms) at which its TTL elapses. -/
structure LockEntry where
  value : String
  expiresAt : ℤ
deriving Repr, DecidableEq

/-- What the store reports for a lock key at instant now: an entry whose
TTL already elapsed is gone (Redis eviction). -/
def liveEntry (entry : Option LockEntry) (now : ℤ) : Option LockEntry :=
  match entry with
  | some e => if now < e.expiresAt then some e else none
  | none => none

/-- Embedding of CacheManager.acquireLock: SET key value NX EX ttl.
Succeeds iff no live entry exists, installing the caller token with a
TTL of ttlSeconds.  A store error is caught: log, return false
(fail closed), state untouched. -/
def acquireLock (storeFailing : Bool) (entry : Option LockEntry) (now : ℤ)
    (ttlSeconds : ℤ) (lockValue : String) : Bool × Option LockEntry :=
  if storeFailing then (false, entry)
  else
    match liveEntry entry now with
    | none => (true, some ⟨lockValue, now + ttlSeconds * 1000⟩)
    | some _ => (false, entry)

/-- Embedding of CacheManager.releaseLock: the Lua script GETs the key
and DELs it only when the stored value equals lockValue, atomically.
Returns true iff the DEL ran.  A store error is caught: log, return
false (fail closed), state untouched. -/
def releaseLock (storeFailing : Bool) (entry : Option LockEntry) (now : ℤ)
    (lockValue : String) : Bool × Option LockEntry :=
  if storeFailing then (false, entry)
  else
    match liveEntry entry now with
    | some e => if e.value = lockValue then (true, none) else (false, entry)
    | none => (false, entry)

/-! ## Message pipeline (KafkaProducerManager / KafkaConsumerManager) -/

/-- The typed KafkaError raised by the pipeline (message plus optional
topic context). -/
structure KError where
  message : String
  topic : Option String
deriving Repr, DecidableEq

/-- A JavaScript Error raised by a handler or passed to dead-letter
routing: name, message, stack. -/
structure ErrInfo where
  name : String
  message : String
  stack : String
deriving Repr, DecidableEq

/-- The originalMessage object built by handleFailedMessage from the
failed payload: topic, partition, offset, key, value, headers. -/
structure OriginalMessage where
  topic : String
  partition : ℤ
  offset : String
  key : Option String
  value : Option String
  headers : List (String × String)
deriving Repr, DecidableEq

/-- The JSON body of a dead-letter record: the original message, the
error (message, stack, name), failedAt and messageId. -/
structure DLValue where
  originalMessage : OriginalMessage
  errorMessage : String
  errorStack : String
  errorName : String
  failedAt : String
  messageId : String
deriving Repr, DecidableEq

/-- A record handed to producer.send for the dead-letter topic: Kafka
key, structured value, headers. -/
structure DeadLetterMessage where
  key : String
  value : DLValue
  headers : List (String × String)
deriving Repr, DecidableEq

/-- Default dead-letter topic name (kafkaConfig.topics.deadLetter). -/
def deadLetterTopic : String := "dead-letter"

/-- JavaScript a || b on an optional string: undefined and the empty
string are falsy. -/
def jsOrDefault (k : Option String) (d : String) : String :=
  match k with
  | some s => if s = "" then d else s
  | none => d

/-- Embedding of KafkaProducerManager.sendMessage.  Returns the call
result together with the list of records handed to producer.send (empty
when the not-connected guard throws first).  brokerOk models
producer.send succeeding; on failure the typed KafkaError for the topic
is raised. -/
def sendMessage {α : Type} (isConnected brokerOk : Bool) (topic : String)
    (message : α) : Except KError Unit × List (String × α) :=
  if !isConnected then
    (.error ⟨"Producer is not connected to Kafka cluster", none⟩, [])
  else if brokerOk then
    (.ok (), [(topic, message)])
  else
    (.error ⟨"Failed to send message to topic " ++ topic, some topic⟩, [(topic, message)])

/-- The dead-letter record KafkaProducerManager.sendToDeadLetter builds:
key is the original key or "unknown"; the value wraps originalMessage,
error fields, failedAt and messageId; headers carry messageId, the
constant "unknown" as originalTopic, the error name as failureReason,
and a timestamp. -/
def mkDeadLetterMessage (originalMessage : OriginalMessage)
    (processingError : ErrInfo) (messageId nowIso : String) : DeadLetterMessage :=
  { key := jsOrDefault originalMessage.key "unknown"
    value := { originalMessage := originalMessage
               errorMessage := processingError.message
               errorStack := processingError.stack
               errorName := processingError.name
               failedAt := nowIso
               messageId := messageId }
    headers := [("messageId", messageId),
                ("originalTopic", "unknown"),
                ("failureReason", processingError.name),
                ("timestamp", nowIso)] }

/-- Embedding of KafkaProducerManager.sendToDeadLetter: build the
dead-letter record and send it to the dead-letter topic via sendMessage.
The generated uuid and the current ISO timestamp enter as messageId and
nowIso. -/
def sendToDeadLetter (isConnected brokerOk : Bool)
    (originalMessage : OriginalMessage) (processingError : ErrInfo)
    (messageId nowIso : String) :
    Except KError DeadLetterMessage × List (String × DeadLetterMessage) :=
  let msg := mkDeadLetterMessage originalMessage processingError messageId nowIso
  match sendMessage isConnected brokerOk deadLetterTopic msg with
  | (.ok _, sent) => (.ok msg, sent)
  | (.error e, sent) => (.error e, sent)

/-- A consumed Kafka message: offset, key, value, headers. -/
structure ConsumerMessage where
  offset : String
  key : Option String
  value : Option String
  headers : List (String × String)
deriving Repr, DecidableEq

/-- The EachMessagePayload handed to the eachMessage callback. -/
structure EachMessagePayload where
  topic : String
  partition : ℤ
  message : ConsumerMessage
deriving Repr, DecidableEq

/-- A registered per-topic handler; raising is modelled by returning an
error value. -/
def Handler : Type := EachMessagePayload → Except ErrInfo Unit

/-- The messageHandlers map, newest registration first; lookup takes the
most recent entry for a topic (Map.set overwrites). -/
def lookupHandler (handlers : List (String × Handler)) (topic : String) :
    Option Handler :=
  match handlers with
  | [] => none
  | (t, h) :: rest => if t = topic then some h else lookupHandler rest topic

/-- Embedding of KafkaConsumerManager.subscribe: throws the typed
KafkaError when not connected; on subscribe failure throws and leaves
the handler map untouched; on success records the handler for the
topic.  Returns the call result and the resulting handler map. -/
def subscribe (isConnected subscribeOk : Bool)
    (handlers : List (String × Handler)) (topic : String) (handler : Handler) :
    Except KError Unit × List (String × Handler) :=
  if !isConnected then
    (.error ⟨"Consumer is not connected to Kafka cluster", none⟩, handlers)
  else if subscribeOk then
    (.ok (), (topic, handler) :: handlers)
  else
    (.error ⟨"Failed to subscribe to topic " ++ topic, some topic⟩, handlers)

/-- Observable outcome of the eachMessage callback on one payload:
whether a handler was found, whether it succeeded, and the records
handed to producer.send for the dead-letter topic on its behalf. -/
structure MessageOutcome where
  handled : Bool
  succeeded : Bool
  deadLetterPublishes : List (String × DeadLetterMessage)
deriving DecidableEq

/-- Embedding of KafkaConsumerManager.handleFailedMessage: build the
originalMessage record from the payload and call sendToDeadLetter; a
dead-letter failure is caught and logged, never rethrown, so only the
send attempts are observable. -/
def mkOriginalMessage (payload : EachMessagePayload) : OriginalMessage :=
  { topic := payload.topic
    partition := payload.partition
    offset := payload.message.offset
    key := payload.message.key
    value := payload.message.value
    headers := payload.message.headers }

/-- Dead-letter routing for one failed payload (handleFailedMessage):
the records handed to producer.send. -/
def handleFailedMessage (producerConnected brokerOk : Bool)
    (payload : EachMessagePayload) (error : ErrInfo)
    (messageId nowIso : String) : List (String × DeadLetterMessage) :=
  (sendToDeadLetter producerConnected brokerOk (mkOriginalMessage payload)
    error messageId nowIso).2

/-- Embedding of the eachMessage callback in startConsuming: look up the
handler for the topic (absent: warn and skip); run it; on a raise, the
catch branch logs and routes the payload to dead-letter.  The callback
itself never raises. -/
def eachMessage (handlers : List (String × Handler))
    (producerConnected brokerOk : Bool) (payload : EachMessagePayload)
    (messageId nowIso : String) : MessageOutcome :=
  match lookupHandler handlers payload.topic with
  | none => { handled := false, succeeded := false, deadLetterPublishes := [] }
  | some handler =>
      match handler payload with
      | .ok _ => { handled := true, succeeded := true, deadLetterPublishes := [] }
      | .error e =>
          { handled := true, succeeded := false,
            deadLetterPublishes :=
              handleFailedMessage producerConnected brokerOk payload e messageId nowIso }

/-- The consumer run loop over a delivered message sequence: eachMessage
is invoked once per payload, in order; each invocation draws a fresh
uuid and timestamp (threaded alongside the payload). -/
def consumeRun (handlers : List (String × Handler))
    (producerConnected brokerOk : Bool)
    (msgs : List (EachMessagePayload × String × String)) : List MessageOutcome :=
  msgs.map fun m => eachMessage handlers producerConnected brokerOk m.1 m.2.1 m.2.2

/-- Embedding of KafkaConsumerManager.startConsuming: throws the typed
KafkaError when not connected, otherwise runs the processing loop over
the delivered messages. -/
def startConsuming (isConnected : Bool) (handlers : List (String × Handler))
    (producerConnected brokerOk : Bool)
    (msgs : List (EachMessagePayload × String × String)) :
    Except KError (List MessageOutcome) :=
  if !isConnected then
    .error ⟨"Consumer is not connected to Kafka cluster", none⟩
  else
    .ok (consumeRun handlers producerConnected brokerOk msgs)

/-! ## Helper lemmas -/

/-- The refilled token count a check computes for a present bucket. -/
def refilled (b : Bucket) (now : ℤ) (maxTokens refillRate : ℚ) : ℚ :=
  min maxTokens (b.tokens + ((⌊((now - b.lastRefill : ℤ) : ℚ) / 1000 * refillRate⌋ : ℤ) : ℚ))

lemma rateLimitCheck_absent_allowed (now : ℤ) (M R q : ℚ) :
    (rateLimitCheck false .absent now M R q).allowed = true ↔ q ≤ M := by
  simp only [rateLimitCheck, Bool.false_eq_true, if_false]
  split_ifs with h <;> simp [h]

lemma rateLimitCheck_bucket_allowed (b : Bucket) (now : ℤ) (M R q : ℚ) :
    (rateLimitCheck false (.bucket b) now M R q).allowed = true ↔
      q ≤ refilled b now M R := by
  unfold rateLimitCheck
  simp only [Bool.false_eq_true, if_false]
  split_ifs with h
  · exact iff_of_true rfl h
  · exact iff_of_false (by simp) h

lemma rateLimitCheck_absent_stored (now : ℤ) (M R q : ℚ) (h : q ≤ M) :
    (rateLimitCheck false .absent now M R q).stored = .bucket ⟨M - q, now⟩ := by
  simp [rateLimitCheck, h]

lemma rateLimitCheck_bucket_stored (b : Bucket) (now : ℤ) (M R q : ℚ)
    (h : q ≤ refilled b now M R) :
    (rateLimitCheck false (.bucket b) now M R q).stored =
      .bucket ⟨refilled b now M R - q, now⟩ := by
  have h' : q ≤ min M (b.tokens +
      ((⌊((now - b.lastRefill : ℤ) : ℚ) / 1000 * R⌋ : ℤ) : ℚ)) := h
  unfold rateLimitCheck
  simp only [Bool.false_eq_true, if_false]
  rw [if_pos h']
  rfl

/-! ## Claim theorems -/

/-- Claim C1: rateLimitCheck implements the claimed token-bucket
algorithm — an absent bucket counts as full with lastRefill = now,
otherwise tokens are refilled to min(maxTokens, tokens +
floor(elapsed seconds times refillRate)); the call allows iff the
refilled tokens cover the request, subtracting and persisting on allow
and leaving state unchanged on deny — and in the concrete scenario with
maxTokens 10 and refillRate 1, draining 10 tokens then immediately
asking for 1 is denied while asking for 1 after at least one elapsed
second is allowed. -/
theorem rateLimitCheck_meets_claim (stored : Option Bucket) (now t0 d : ℤ)
    (maxTokens refillRate tokensRequested : ℚ) (hd : 1000 ≤ d) :
    ((rateLimitCheck false (toStored stored) now maxTokens refillRate tokensRequested).allowed
        = (rateLimitClaimSpec stored now maxTokens refillRate tokensRequested).1
      ∧ (rateLimitCheck false (toStored stored) now maxTokens refillRate tokensRequested).stored
        = toStored (rateLimitClaimSpec stored now maxTokens refillRate tokensRequested).2)
    ∧ (rateLimitCheck false .absent t0 10 1 10).allowed = true
    ∧ (rateLimitCheck false (rateLimitCheck false .absent t0 10 1 10).stored
        t0 10 1 1).allowed = false
    ∧ (rateLimitCheck false (rateLimitCheck false .absent t0 10 1 10).stored
        (t0 + d) 10 1 1).allowed = true := by
  have hdrain : (rateLimitCheck false .absent t0 10 1 10).stored =
      .bucket ⟨0, t0⟩ := by
    have := rateLimitCheck_absent_stored t0 10 1 10 (by norm_num)
    simpa using this
  refine ⟨?_, ?_, ?_, ?_⟩
  · cases stored with
    | none =>
        simp only [toStored, rateLimitClaimSpec, Option.getD, ge_iff_le]
        rw [show ((now - now : ℤ) : ℚ) = 0 by push_cast; ring]
        simp only [zero_div, zero_mul, Int.floor_zero, Int.cast_zero, add_zero, min_self]
        constructor
        · simp only [rateLimitCheck, Bool.false_eq_true, if_false]
          split_ifs with h <;> simp
        · simp only [rateLimitCheck, Bool.false_eq_true, if_false]
          split_ifs with h <;> simp [toStored]
    | some b =>
        simp only [toStored, rateLimitClaimSpec, Option.getD, ge_iff_le]
        constructor
        · simp only [rateLimitCheck, Bool.false_eq_true, if_false]
          split_ifs with h <;> simp
        · simp only [rateLimitCheck, Bool.false_eq_true, if_false]
          split_ifs with h <;> simp [toStored]
  · exact (rateLimitCheck_absent_allowed t0 10 1 10).mpr (by norm_num)
  · rw [hdrain, Bool.eq_false_iff, Ne, rateLimitCheck_bucket_allowed]
    have h0 : refilled ⟨0, t0⟩ t0 10 1 = 0 := by
      simp only [refilled]
      rw [show ((t0 - t0 : ℤ) : ℚ) = 0 by push_cast; ring]
      norm_num
    rw [h0]
    norm_num
  · rw [hdrain, rateLimitCheck_bucket_allowed]
    have hsub : ((t0 + d - t0 : ℤ) : ℚ) = (d : ℚ) := by push_cast; ring
    simp only [refilled, hsub]
    have hfloor : (1 : ℤ) ≤ ⌊(d : ℚ) / 1000 * 1⌋ := by
      rw [Int.le_floor]
      rw [mul_one, le_div_iff (by norm_num : (0:ℚ) < 1000)]
      push_cast
      exact_mod_cast by exact_mod_cast (by exact_mod_cast hd : (1000 : ℤ) ≤ d)
    refine le_min (by norm_num) ?_
    have : (1 : ℚ) ≤ (⌊(d : ℚ) / 1000 * 1⌋ : ℚ) := by exact_mod_cast hfloor
    linarith

/-- Witness for C1 at concrete inputs: after draining the bucket at
instant 0, a request for one token at instant 1000 is allowed. -/
theorem rateLimitCheck_meets_claim_witness :
    (rateLimitCheck false (rateLimitCheck false .absent 0 10 1 10).stored
      (0 + 1000) 10 1 1).allowed = true :=
  (rateLimitCheck_meets_claim none 0 0 1000 10 1 1 (by norm_num)).2.2.2

/-- Claim C3: when the store round trip raises or the stored bucket
state is malformed, rateLimitCheck fails open — it returns allowed and
logs the degraded-mode event — leaving the stored state untouched; this
holds for every such call. -/
theorem rateLimitCheck_fail_open (stored : StoredBucket) (now : ℤ)
    (maxTokens refillRate tokensRequested : ℚ) :
    rateLimitCheck true stored now maxTokens refillRate tokensRequested =
      { allowed := true, stored := stored, writtenTTL := none, degraded := true }
    ∧ rateLimitCheck false .malformed now maxTokens refillRate tokensRequested =
      { allowed := true, stored := .malformed, writtenTTL := none, degraded := true } :=
  ⟨rfl, rfl⟩

/-- Claim C4: when the store raises, acquireLock reports not-acquired
and releaseLock reports not-released; both return a Boolean instead of
propagating the store error, and neither touches the stored entry. -/
theorem lock_fail_closed (entry : Option LockEntry) (now ttlSeconds : ℤ)
    (ownerToken : String) :
    acquireLock true entry now ttlSeconds ownerToken = (false, entry)
    ∧ releaseLock true entry now ownerToken = (false, entry) :=
  ⟨rfl, rfl⟩

/-- Claim C2: for a lock key with distinct owner tokens, acquire
succeeds iff no live entry exists; a second acquire before expiry fails;
a wrong-owner release fails and leaves the lock held by the first owner;
an owner release succeeds, after which a fresh acquire by the other
token succeeds. -/
theorem lock_mutual_exclusion (T1 T2 T : String) (t0 t1 t2 t3 t4 ttl : ℤ)
    (entry : Option LockEntry) (now : ℤ)
    (hT : T1 ≠ T2)
    (h1 : t1 < t0 + ttl * 1000)
    (h2 : t2 < t0 + ttl * 1000)
    (h3 : t3 < t0 + ttl * 1000) :
    ((acquireLock false entry now ttl T).1 = true ↔ liveEntry entry now = none)
    ∧ acquireLock false none t0 ttl T1 = (true, some ⟨T1, t0 + ttl * 1000⟩)
    ∧ acquireLock false (some ⟨T1, t0 + ttl * 1000⟩) t1 ttl T2 =
        (false, some ⟨T1, t0 + ttl * 1000⟩)
    ∧ releaseLock false (some ⟨T1, t0 + ttl * 1000⟩) t2 T2 =
        (false, some ⟨T1, t0 + ttl * 1000⟩)
    ∧ liveEntry (some ⟨T1, t0 + ttl * 1000⟩) t2 = some ⟨T1, t0 + ttl * 1000⟩
    ∧ releaseLock false (some ⟨T1, t0 + ttl * 1000⟩) t3 T1 = (true, none)
    ∧ (acquireLock false none t4 ttl T2).1 = true := by
  refine ⟨?_, rfl, ?_, ?_, ?_, ?_, rfl⟩
  · unfold acquireLock
    cases hE : liveEntry entry now <;> simp [hE]
  · simp [acquireLock, liveEntry, h1]
  · simp [releaseLock, liveEntry, h2, hT]
  · simp [liveEntry, h2]
  · simp [releaseLock, liveEntry, h3]

/-- Witness for C2 at concrete inputs: the wrong-owner release fails and
leaves the entry intact. -/
theorem lock_mutual_exclusion_witness :
    releaseLock false (some ⟨"T1", (0:ℤ) + 5 * 1000⟩) 2 "T2" =
      (false, some ⟨"T1", (0:ℤ) + 5 * 1000⟩) :=
  (lock_mutual_exclusion "T1" "T2" "T" 0 1 2 3 9999 5 none 0 (by decide)
    (by norm_num) (by norm_num) (by norm_num)).2.2.2.1

/-- Per-call bound: a bucket written by a successful check holds between
0 and maxTokens tokens. -/
lemma rateLimitCheck_written_bounds (s : StoredBucket) (now : ℤ) (M R q : ℚ)
    (hq : 0 ≤ q) (b : Bucket)
    (hw : (rateLimitCheck false s now M R q).writtenTTL ≠ none)
    (hs : (rateLimitCheck false s now M R q).stored = .bucket b) :
    0 ≤ b.tokens ∧ b.tokens ≤ M := by
  cases s with
  | malformed => exact absurd rfl hw
  | absent =>
      unfold rateLimitCheck at hw hs
      simp only [Bool.false_eq_true, if_false] at hw hs
      split_ifs at hw hs with hc
      · simp only [StoredBucket.bucket.injEq] at hs
        subst hs
        exact ⟨by simpa using hc, by simpa using hq⟩
  | bucket b0 =>
      unfold rateLimitCheck at hw hs
      simp only [Bool.false_eq_true, if_false] at hw hs
      split_ifs at hw hs with hc
      · simp only [StoredBucket.bucket.injEq] at hs
        subst hs
        constructor
        · simpa using hc
        · have hmin : min M (b0.tokens +
              ((⌊((now - b0.lastRefill : ℤ) : ℚ) / 1000 * R⌋ : ℤ) : ℚ)) ≤ M :=
            min_le_left _ _
          simp only
          linarith
      · exact absurd rfl hw

/-- Claim C7: over any sequence of checks against one bucket with fixed
maxTokens and refillRate, every request for a nonnegative token count
that results in a write leaves the persisted token count within
[0, maxTokens]. -/
theorem rateLimit_tokens_in_range (M R : ℚ) (s0 : StoredBucket)
    (reqs : List (ℤ × ℚ)) (hq : ∀ p ∈ reqs, 0 ≤ p.2) :
    ∀ o ∈ runChecks M R s0 reqs, ∀ b : Bucket,
      o.writtenTTL ≠ none → o.stored = .bucket b →
        0 ≤ b.tokens ∧ b.tokens ≤ M := by
  induction reqs generalizing s0 with
  | nil => simp [runChecks]
  | cons p rest ih =>
      obtain ⟨now, q⟩ := p
      intro o ho b hw hs
      simp only [runChecks, List.mem_cons] at ho
      rcases ho with rfl | ho
      · exact rateLimitCheck_written_bounds _ _ _ _ _
          (hq _ (List.mem_cons_self _ _)) b hw hs
      · exact ih _ (fun p hp => hq p (List.mem_cons_of_mem _ hp)) o ho b hw hs

/-- Witness for C7 at concrete inputs: the single allowed request for 2
of 10 tokens persists 8 tokens, within [0, 10]. -/
theorem rateLimit_tokens_in_range_witness :
    (0:ℚ) ≤ 8 ∧ (8:ℚ) ≤ 10 :=
  rateLimit_tokens_in_range 10 1 .absent [((0:ℤ), (2:ℚ))]
    (by intro p hp; simp only [List.mem_singleton] at hp; subst hp; norm_num)
    (rateLimitCheck false .absent 0 10 1 2)
    (by simp [runChecks])
    ⟨8, 0⟩
    (by norm_num [rateLimitCheck]; exact Option.some_ne_none _)
    (by norm_num [rateLimitCheck])

/-- Counterexample for C8: with maxTokens 5 and refillRate 2 an allowed
check persists with TTL ceil(5/2) * 2 = 6 seconds, while the claimed
expiry 2 * (5 / 2) is 5 seconds. -/
theorem rateLimit_ttl_counterexample :
    (rateLimitCheck false .absent 0 5 2 1).writtenTTL = some 6
    ∧ ((6 : ℚ) ≠ 2 * ((5:ℚ) / 2)) := by
  constructor
  · have hceil : ⌈(5:ℚ) / 2⌉ = 3 := by
      rw [Int.ceil_eq_iff]
      constructor <;> norm_num
    norm_num [rateLimitCheck, hceil]
  · norm_num

/-- Claim C8 as amended: every bucket write uses a TTL of
ceil(maxTokens / refillRate) * 2 seconds (which equals
2 * (maxTokens / refillRate) only when refillRate divides maxTokens). -/
theorem rateLimit_ttl_amended (s : StoredBucket) (now : ℤ)
    (M R q : ℚ) (t : ℤ)
    (h : (rateLimitCheck false s now M R q).writtenTTL = some t) :
    t = ⌈M / R⌉ * 2 := by
  cases s with
  | malformed => simp [rateLimitCheck] at h
  | absent =>
      unfold rateLimitCheck at h
      simp only [Bool.false_eq_true, if_false] at h
      split_ifs at h with hc
      · simp only [Option.some.injEq] at h
        exact h.symm
  | bucket b =>
      unfold rateLimitCheck at h
      simp only [Bool.false_eq_true, if_false] at h
      split_ifs at h with hc
      · simp only [Option.some.injEq] at h
        exact h.symm

/-- Witness for C8 (amended) at concrete inputs: the TTL written for
maxTokens 5, refillRate 2 equals ceil(5/2) * 2. -/
theorem rateLimit_ttl_amended_witness : (6:ℤ) = ⌈(5:ℚ) / 2⌉ * 2 :=
  rateLimit_ttl_amended .absent 0 5 2 1 6 (by
    have hceil : ⌈(5:ℚ) / 2⌉ = 3 := by
      rw [Int.ceil_eq_iff]
      constructor <;> norm_num
    norm_num [rateLimitCheck, hceil])

/-- Claim C10: with well-formed state and no store error, a request for
more than maxTokens tokens is always denied — the refill clamps the
available tokens at maxTokens — and nothing is written. -/
theorem rateLimit_overlimit_denied (s : StoredBucket) (now : ℤ)
    (M R q : ℚ) (hs : s ≠ .malformed) (h : M < q) :
    (rateLimitCheck false s now M R q).allowed = false
    ∧ (rateLimitCheck false s now M R q).stored = s
    ∧ (rateLimitCheck false s now M R q).writtenTTL = none := by
  cases s with
  | malformed => exact absurd rfl hs
  | absent =>
      unfold rateLimitCheck
      simp only [Bool.false_eq_true, if_false]
      rw [if_neg (not_le.mpr h)]
      exact ⟨rfl, rfl, rfl⟩
  | bucket b =>
      have hcond : ¬ (q ≤ min M (b.tokens +
          ((⌊((now - b.lastRefill : ℤ) : ℚ) / 1000 * R⌋ : ℤ) : ℚ))) :=
        fun hc => absurd (le_trans hc (min_le_left _ _)) (not_le.mpr h)
      unfold rateLimitCheck
      simp only [Bool.false_eq_true, if_false]
      rw [if_neg hcond]
      exact ⟨rfl, rfl, rfl⟩

/-- Witness for C10 at concrete inputs: requesting 11 of at most 10
tokens is denied and writes nothing. -/
theorem rateLimit_overlimit_denied_witness :
    (rateLimitCheck false .absent 0 10 1 11).allowed = false
    ∧ (rateLimitCheck false .absent 0 10 1 11).stored = .absent
    ∧ (rateLimitCheck false .absent 0 10 1 11).writtenTTL = none :=
  rateLimit_overlimit_denied .absent 0 10 1 11 (by decide) (by norm_num)

/-- Claim C5: when the registered handler for a consumed message raises,
the eachMessage callback hands exactly one record to dead-letter
routing, carrying the original message (topic, partition, offset, key,
payload, headers) and the failure, with the envelope key equal to the
failed message key and the envelope error message equal to the raised
message; the run loop still processes every delivered message
independently, so the failure never escapes the loop. -/
theorem consumer_dead_letters_failed_message
    (handlers : List (String × Handler)) (payload : EachMessagePayload)
    (h : Handler) (e : ErrInfo) (mid nowIso : String)
    (msgs : List (EachMessagePayload × String × String))
    (hlook : lookupHandler handlers payload.topic = some h)
    (hraise : h payload = .error e) :
    (eachMessage handlers true true payload mid nowIso).deadLetterPublishes =
      [(deadLetterTopic, mkDeadLetterMessage (mkOriginalMessage payload) e mid nowIso)]
    ∧ (mkOriginalMessage payload).topic = payload.topic
    ∧ (mkOriginalMessage payload).partition = payload.partition
    ∧ (mkOriginalMessage payload).offset = payload.message.offset
    ∧ (mkOriginalMessage payload).key = payload.message.key
    ∧ (mkOriginalMessage payload).value = payload.message.value
    ∧ (mkOriginalMessage payload).headers = payload.message.headers
    ∧ (mkDeadLetterMessage (mkOriginalMessage payload) e mid nowIso).value.originalMessage.key
        = payload.message.key
    ∧ (mkDeadLetterMessage (mkOriginalMessage payload) e mid nowIso).value.errorMessage
        = e.message
    ∧ consumeRun handlers true true msgs =
        msgs.map (fun m => eachMessage handlers true true m.1 m.2.1 m.2.2)
    ∧ (consumeRun handlers true true msgs).length = msgs.length := by
  refine ⟨?_, rfl, rfl, rfl, rfl, rfl, rfl, rfl, rfl, rfl, ?_⟩
  · simp only [eachMessage, hlook, hraise]
    rfl
  · simp [consumeRun]

/-- Witness for C5 at concrete inputs: a handler for topic raw-content
that raises on the message with key u1 causes exactly one dead-letter
publish wrapping that message and that error. -/
theorem consumer_dead_letters_failed_message_witness :
    (eachMessage [("raw-content", fun _ => .error ⟨"Error", "boom", "st"⟩)]
        true true ⟨"raw-content", 0, ⟨"0", some "u1", some "x", []⟩⟩
        "m1" "t1").deadLetterPublishes =
      [(deadLetterTopic,
        mkDeadLetterMessage
          (mkOriginalMessage ⟨"raw-content", 0, ⟨"0", some "u1", some "x", []⟩⟩)
          ⟨"Error", "boom", "st"⟩ "m1" "t1")] :=
  (consumer_dead_letters_failed_message
    [("raw-content", fun _ => .error ⟨"Error", "boom", "st"⟩)]
    ⟨"raw-content", 0, ⟨"0", some "u1", some "x", []⟩⟩
    (fun _ => .error ⟨"Error", "boom", "st"⟩) ⟨"Error", "boom", "st"⟩
    "m1" "t1" [] (by simp [lookupHandler]) rfl).1

/-- Counterexample for C6: for a failed message on topic raw-content,
the published dead-letter record's originalTopic header is the constant
"unknown", not the original topic. -/
theorem deadLetter_originalTopic_counterexample :
    ((sendToDeadLetter true true
        ⟨"raw-content", 0, "0", some "u1", some "x", []⟩
        ⟨"Error", "boom", "st"⟩ "m1" "t1").2.map
      fun r => r.2.headers.lookup "originalTopic") = [some "unknown"]
    ∧ ("unknown" : String) ≠ "raw-content" := by
  exact ⟨rfl, by decide⟩

/-- Claim C6 as amended: every dead-letter publish sends exactly the
record whose envelope carries the original message, the error message
and name, failedAt and messageId, and whose headers carry the failure
name as failureReason and messageId — but whose originalTopic header is
the constant "unknown" rather than the original message's topic (the
true topic travels inside the envelope's originalMessage). -/
theorem deadLetter_record_fields (om : OriginalMessage) (e : ErrInfo)
    (mid nowIso : String) :
    (sendToDeadLetter true true om e mid nowIso).2 =
      [(deadLetterTopic, mkDeadLetterMessage om e mid nowIso)]
    ∧ (mkDeadLetterMessage om e mid nowIso).value.originalMessage = om
    ∧ (mkDeadLetterMessage om e mid nowIso).value.errorMessage = e.message
    ∧ (mkDeadLetterMessage om e mid nowIso).value.errorName = e.name
    ∧ (mkDeadLetterMessage om e mid nowIso).value.failedAt = nowIso
    ∧ (mkDeadLetterMessage om e mid nowIso).value.messageId = mid
    ∧ (mkDeadLetterMessage om e mid nowIso).headers.lookup "failureReason"
        = some e.name
    ∧ (mkDeadLetterMessage om e mid nowIso).headers.lookup "originalTopic"
        = some "unknown"
    ∧ (mkDeadLetterMessage om e mid nowIso).headers.lookup "messageId"
        = some mid :=
  ⟨rfl, rfl, rfl, rfl, rfl, rfl, rfl, rfl, rfl⟩

/-- Claim C9: with a disconnected client, producer sends (including
dead-letter publishing) raise the typed KafkaError and hand nothing to
the broker, consumer subscribe raises the typed KafkaError and leaves
the handler registrations untouched, and startConsuming raises the
typed KafkaError without processing anything. -/
theorem pipeline_requires_connection {α : Type} (brokerOk subscribeOk : Bool)
    (topic : String) (message : α) (om : OriginalMessage) (e : ErrInfo)
    (mid nowIso : String) (handlers : List (String × Handler))
    (handler : Handler) (producerConnected : Bool)
    (msgs : List (EachMessagePayload × String × String)) :
    sendMessage false brokerOk topic message =
      (.error ⟨"Producer is not connected to Kafka cluster", none⟩, [])
    ∧ (sendToDeadLetter false brokerOk om e mid nowIso).1 =
        .error ⟨"Producer is not connected to Kafka cluster", none⟩
    ∧ (sendToDeadLetter false brokerOk om e mid nowIso).2 = []
    ∧ subscribe false subscribeOk handlers topic handler =
        (.error ⟨"Consumer is not connected to Kafka cluster", none⟩, handlers)
    ∧ startConsuming false handlers producerConnected brokerOk msgs =
        .error ⟨"Consumer is not connected to Kafka cluster", none⟩ :=
  ⟨rfl, rfl, rfl, rfl, rfl⟩

end ADS
